import Mathlib

/-!
Verification of the SimpleSTL dynamic-array container (Lsh::vector<T> in
src/vector.h, with the collaborators in src/allocator.h and src/construct.h).

The development shallow-embeds the parts of the source the claims are about:

* Size arithmetic (max_size, check_len, check_init_len) over Nat with an
  explicit modulus 2^64 wherever size_type wraparound matters.
* A traced container model (VecB / StB): live elements as a list, the buffer
  base address, the capacity, a fresh-address counter and a chronological
  trace of allocate/deallocate calls made to the allocator.  The element type
  is instantiated at Nat (a trivially-copyable, trivially-destructible type),
  so placement-construction overwrites a slot and destroy is bookkeeping only,
  exactly as the construct.h primitives behave for such types.
* An aliasing model for single-element insert, where the value argument is a
  reference (an index) into the container's own buffer and every read of it
  goes through the buffer contents current at that point of the algorithm.
* A heap model with per-slot construction state and a failure oracle for the
  element operations, used to examine reallocation behaviour when an element
  copy/move throws mid-transfer.
-/

set_option linter.unusedVariables false

/-! ### Size arithmetic (src/vector.h lines 324-330, 780-796) -/

/-- Width of size_type (std::size_t, 64-bit). -/
def W : Nat := 2 ^ 64

/-- numeric_limits<ptrdiff_t>::max() / sizeof(T), for element size szT. -/
def diffmax (szT : Nat) : Nat := (2 ^ 63 - 1) / szT

/-- allocator_traits default max_size: numeric_limits<size_t>::max() / sizeof(T). -/
def allocmax (szT : Nat) : Nat := (W - 1) / szT

/-- vector<T>::max_size(), src/vector.h lines 325-330: min of the two bounds. -/
def max_size (szT : Nat) : Nat := min (diffmax szT) (allocmax szT)

/-- vector<T>::check_len(count), src/vector.h lines 788-796.  All size_type
arithmetic wraps modulo 2^64, as in the source (count + size() and
size() + max(count, size()) are unsigned additions).  An error models the
thrown std::length_error. -/
def check_len (szT s n : Nat) : Except Unit Nat :=
  if max_size szT < (n + s) % W then Except.error ()
  else
    let len : Nat := (s + max n s) % W
    Except.ok (if len < s ∨ max_size szT < len then max_size szT else len)

/-- vector<T>::check_init_len(count), src/vector.h lines 780-785. -/
def check_init_len (szT c : Nat) : Except Unit Nat :=
  if max_size szT < c then Except.error () else Except.ok c

/-- C3: the code does compute max(n + s, 2s) clamped to max_size in the
ordinary range, but when n + s wraps around 2^64 the guard
max_size() < count + size() compares against the wrapped value, so
check_len returns normally (with max_size) instead of raising the
length-exceeded error the claim requires.  Concretely, for a vector of a
one-byte element type with s = 1 and n = 2^64 - 1 the minimum required
capacity n + s = 2^64 exceeds max_size, yet check_len succeeds. -/
theorem c3_check_len_misses_wraparound :
    check_len 1 1 (W - 1) = Except.ok (max_size 1) ∧ max_size 1 < (W - 1) + 1 := by
  constructor
  · rfl
  · decide

/-! ### Traced container model

The container state keeps the three-pointer layout of the source as the base
address (start_), the list of live elements (the range [start_, finish_)) and
the capacity (end_of_storage_ - start_).  Addresses are in units of elements;
0 plays the role of the null pointer.  Every call the container makes to the
allocator is recorded chronologically in a trace. -/

/-- One call to the allocator. -/
inductive Ev where
  | alloc (p count : Nat)
  | dealloc (p count : Nat)
deriving DecidableEq, Repr

/-- The three-pointer state of one Lsh::vector<Nat>: base address, live
elements [start_, finish_), capacity end_of_storage_ - start_. -/
structure VecB where
  start : Nat
  elems : List Nat
  cap   : Nat
deriving DecidableEq, Repr

/-- A container together with the allocator interaction: the next fresh
address the allocator would hand out and the trace of calls made so far. -/
structure StB where
  v    : VecB
  next : Nat
  tr   : List Ev
deriving DecidableEq, Repr

/-- vector::allocate(count), src/vector.h lines 531-535: a nonzero count asks
the allocator for fresh storage, count zero yields the null pointer without
calling the allocator.  Returns (pointer, new fresh counter, events). -/
def allocB (next count : Nat) : Nat × Nat × List Ev :=
  if count = 0 then (0, next, []) else (next, next + count, [Ev.alloc next count])

/-- vector::deallocate(p, count), src/vector.h lines 538-544: forwards to the
allocator unless p is null. -/
def deallocB (p count : Nat) : List Ev :=
  if p = 0 then [] else [Ev.dealloc p count]

/-- Overwrite the slice of L starting at index i with src (the net effect of
an element-wise assignment loop into already-constructed storage). -/
def setRange (L : List Nat) (i : Nat) (src : List Nat) : List Nat :=
  L.take i ++ src ++ L.drop (i + src.length)

/-- vector::shrink_to_fit(), src/vector.h lines 358-363: when capacity
exceeds size, deallocate(finish_, end_of_storage_ - finish_) and pull
end_of_storage_ down to finish_; otherwise do nothing. -/
def shrink_to_fit (st : StB) : StB :=
  if st.v.elems.length < st.v.cap then
    { v := { start := st.v.start, elems := st.v.elems, cap := st.v.elems.length },
      next := st.next,
      tr := st.tr ++ deallocB (st.v.start + st.v.elems.length) (st.v.cap - st.v.elems.length) }
  else st

/-- vector::reserve(new_cap), src/vector.h lines 336-350: length check first,
then if capacity() < new_cap an allocate_and_copy of the whole live range,
destroy of the old elements and deallocate(start_, end_of_storage_ - start_),
then the three pointers are updated; otherwise no effect. -/
def reserve (szT : Nat) (st : StB) (newCap : Nat) : Except Unit StB :=
  if max_size szT < newCap then Except.error ()
  else if st.v.cap < newCap then
    let a := allocB st.next newCap
    Except.ok
      { v := { start := a.1, elems := st.v.elems, cap := newCap },
        next := a.2.1,
        tr := st.tr ++ a.2.2 ++ deallocB st.v.start st.v.cap }
  else Except.ok st

/-- vector::realloc_insert(position, value) for a trivially-copyable element
(src/vector.h lines 617-641), success path: grow via check_len(1), allocate,
construct the new element at its final slot, move the prefix and suffix of the
old buffer across, destroy the old elements and
deallocate(old_start, end_of_storage_ - old_start). -/
def realloc_insertB (szT : Nat) (st : StB) (pos x : Nat) : Except Unit StB :=
  match check_len szT st.v.elems.length 1 with
  | Except.error e => Except.error e
  | Except.ok newCap =>
    let a := allocB st.next newCap
    Except.ok
      { v := { start := a.1,
               elems := st.v.elems.take pos ++ x :: st.v.elems.drop pos,
               cap := newCap },
        next := a.2.1,
        tr := st.tr ++ a.2.2 ++ deallocB st.v.start st.v.cap }

/-- vector::push_back(value), src/vector.h lines 480-489: construct in place
at finish_ when finish_ != end_of_storage_, else realloc_insert at end(). -/
def push_back (szT : Nat) (st : StB) (x : Nat) : Except Unit StB :=
  if st.v.elems.length ≠ st.v.cap then
    Except.ok { st with v := { st.v with elems := st.v.elems ++ [x] } }
  else realloc_insertB szT st st.v.elems.length x

/-- vector::pop_back(), src/vector.h lines 495-500: step finish_ back and
destroy the last element (bookkeeping only for a trivial element type). -/
def pop_back (st : StB) : StB :=
  { st with v := { st.v with elems := st.v.elems.dropLast } }

/-- vector::~vector(), src/vector.h lines 97-107: destroy the live elements,
then call the allocator with Tr::deallocate(alloc_, start_, size()) - note
the count passed is size(), and the call is not guarded against null. -/
def destructor (st : StB) : StB :=
  { v := { start := 0, elems := [], cap := 0 },
    next := st.next,
    tr := st.tr ++ [Ev.dealloc st.v.start st.v.elems.length] }

/-- The allocator-contract discipline claimed of every deallocate call: the
pointer is null, or the (pointer, count) pair was handed out by a previous
allocate call of the same count. -/
def okTrace : List Ev → List (Nat × Nat) → Bool
  | [], _ => true
  | Ev.alloc p c :: rest, seen => okTrace rest ((p, c) :: seen)
  | Ev.dealloc p c :: rest, seen =>
      (p == 0 || seen.contains (p, c)) && okTrace rest seen

/-- A short concrete lifetime of one vector<Nat> (element size 8):
default-construct, push_back 5, push_back 6, pop_back, shrink_to_fit,
destroy. -/
def c5run : Except Unit StB :=
  ((push_back 8 { v := { start := 0, elems := [], cap := 0 }, next := 1, tr := [] } 5).bind
      (fun s => push_back 8 s 6)).map
    (fun s => destructor (shrink_to_fit (pop_back s)))

/-- C5: the code violates the deallocate contract.  Running the lifetime
above, the buffer for [5,6] is allocated at address 2 with count 2; after
pop_back, shrink_to_fit calls deallocate(3, 1) - an interior pointer never
returned by allocate - and the destructor then calls deallocate(2, 1),
passing size() = 1 instead of the count 2 used by the matching allocate. -/
theorem c5_deallocate_contract_broken :
    c5run = Except.ok
      { v := { start := 0, elems := [], cap := 0 }, next := 4,
        tr := [Ev.alloc 1 1, Ev.alloc 2 2, Ev.dealloc 1 1,
               Ev.dealloc 3 1, Ev.dealloc 2 1] } ∧
    okTrace [Ev.alloc 1 1, Ev.alloc 2 2, Ev.dealloc 1 1,
             Ev.dealloc 3 1, Ev.dealloc 2 1] [] = false := by
  constructor
  · rfl
  · decide

/-- C4: shrink_to_fit releases exactly the excess storage
[finish_, end_of_storage_) to the allocator, leaves the live elements and the
buffer base address untouched, leaves the fresh-address counter alone (it
never allocates), ends with capacity equal to size, and is the identity when
capacity already equals size. -/
theorem c4_shrink_to_fit_spec (st : StB) (h : st.v.elems.length ≤ st.v.cap) :
    (shrink_to_fit st).v.elems = st.v.elems ∧
    (shrink_to_fit st).v.start = st.v.start ∧
    (shrink_to_fit st).v.cap = st.v.elems.length ∧
    (shrink_to_fit st).next = st.next ∧
    (st.v.elems.length < st.v.cap →
      (shrink_to_fit st).tr =
        st.tr ++ deallocB (st.v.start + st.v.elems.length)
          (st.v.cap - st.v.elems.length)) ∧
    (st.v.cap = st.v.elems.length → shrink_to_fit st = st) := by
  by_cases hlt : st.v.elems.length < st.v.cap
  · rw [shrink_to_fit, if_pos hlt]
    exact ⟨rfl, rfl, rfl, rfl, fun _ => rfl, fun hc => absurd hc (by omega)⟩
  · rw [shrink_to_fit, if_neg hlt]
    exact ⟨rfl, rfl, by omega, rfl, fun hl => absurd hl hlt, fun _ => rfl⟩

/-- A vector holding [3] in a buffer of capacity 4 at address 1. -/
def st34 : StB := { v := { start := 1, elems := [3], cap := 4 }, next := 9, tr := [] }

/-- Witness for C4 at a vector holding [3] in a buffer of capacity 4. -/
theorem c4_shrink_to_fit_witness :
    (shrink_to_fit st34).v.elems = [3] ∧
    (shrink_to_fit st34).v.cap = 1 ∧
    (shrink_to_fit st34).tr = [Ev.dealloc 2 3] := by
  have h := c4_shrink_to_fit_spec st34 (by decide)
  exact ⟨h.1, h.2.2.1, (h.2.2.2.2.1 (by decide)).trans rfl⟩

/-- C7: reserve(n) is the identity when n fits in the current capacity, a
pure reallocation (same elements, capacity exactly n, one allocate of count n
followed by a deallocate of the old buffer with its full capacity) when
capacity() < n ≤ max_size(), and a length-exceeded error, raised before
anything changes, when n > max_size(). -/
theorem c7_reserve_spec (szT : Nat) (st : StB) (n : Nat) :
    (n ≤ st.v.cap → st.v.cap ≤ max_size szT → reserve szT st n = Except.ok st) ∧
    (st.v.cap < n → n ≤ max_size szT →
      reserve szT st n = Except.ok
        { v := { start := st.next, elems := st.v.elems, cap := n },
          next := st.next + n,
          tr := st.tr ++ [Ev.alloc st.next n] ++ deallocB st.v.start st.v.cap }) ∧
    (max_size szT < n → reserve szT st n = Except.error ()) := by
  refine ⟨fun h1 h2 => ?_, fun h1 h2 => ?_, fun h1 => ?_⟩
  · rw [reserve, if_neg (by omega), if_neg (by omega)]
  · rw [reserve, if_neg (by omega), if_pos h1]
    have hn : ¬ n = 0 := by omega
    simp [allocB, hn]
  · rw [reserve, if_pos h1]

/-- A vector holding [4] in a buffer of capacity 2 at address 1. -/
def st42 : StB := { v := { start := 1, elems := [4], cap := 2 }, next := 10, tr := [] }

/-- A vector of capacity 3 holding [4], produced by reserving 3 on st42. -/
def st43 : StB :=
  { v := { start := 10, elems := [4], cap := 3 }, next := 13,
    tr := [Ev.alloc 10 3, Ev.dealloc 1 2] }

/-- Witness for C7 at a vector holding [4] at capacity 2: reserving 1 is the
identity, reserving 3 reallocates to capacity exactly 3, and reserving
max_size + 1 errors out. -/
theorem c7_reserve_witness :
    reserve 8 st42 1 = Except.ok st42 ∧
    reserve 8 st42 3 = Except.ok st43 ∧
    reserve 8 st42 (max_size 8 + 1) = Except.error () := by
  refine ⟨?_, ?_, ?_⟩
  · exact (c7_reserve_spec 8 st42 1).1 (by decide) (by decide)
  · exact (c7_reserve_spec 8 st42 3).2.1 (by decide) (by decide)
  · exact (c7_reserve_spec 8 st42 _).2.2 (Nat.lt_succ_self _)

/-! ### Assignment operators (src/vector.h lines 110-163)

Both operator= overloads begin with the identity check
std::addressof(other) != this.  To give that check meaning, container objects
live in a world indexed by object identity; assigning object j to object i
with i = j models c = c (respectively c = std::move(c)). -/

/-- A world of vector objects sharing one allocator: the object store, the
next fresh address and the allocator trace. -/
structure WSt where
  objs : List VecB
  next : Nat
  tr   : List Ev
deriving DecidableEq, Repr

/-- The vector object with identity i (an empty vector if i is unused). -/
def getObj (w : WSt) (i : Nat) : VecB :=
  w.objs.getD i { start := 0, elems := [], cap := 0 }

/-- operator=(const vector&), src/vector.h lines 110-144: after the
self-assignment guard, either reallocate and copy (source larger than
capacity) or reuse the buffer, overwriting the common prefix and destroying
or constructing the tail. -/
def copy_assign (w : WSt) (i j : Nat) : WSt :=
  if i = j then w
  else
    let dst := getObj w i
    let src := getObj w j
    if dst.cap < src.elems.length then
      let a := allocB w.next src.elems.length
      { objs := w.objs.set i
          { start := a.1, elems := src.elems, cap := src.elems.length },
        next := a.2.1,
        tr := w.tr ++ a.2.2 ++ deallocB dst.start dst.cap }
    else if src.elems.length ≤ dst.elems.length then
      { objs := w.objs.set i
          { start := dst.start,
            elems := (src.elems ++ dst.elems.drop src.elems.length).take
              src.elems.length,
            cap := dst.cap },
        next := w.next, tr := w.tr }
    else
      { objs := w.objs.set i
          { start := dst.start,
            elems := src.elems.take dst.elems.length ++
              src.elems.drop dst.elems.length,
            cap := dst.cap },
        next := w.next, tr := w.tr }

/-- operator=(vector&&), src/vector.h lines 146-163: after the guard, clear
and deallocate the current buffer, steal the source's three pointers and null
the source out. -/
def move_assign (w : WSt) (i j : Nat) : WSt :=
  if i = j then w
  else
    let dst := getObj w i
    let src := getObj w j
    { objs := (w.objs.set i ⟨src.start, src.elems, src.cap⟩).set j ⟨0, [], 0⟩,
      next := w.next,
      tr := w.tr ++ deallocB dst.start dst.cap }

/-- C6: self-copy-assignment and self-move-assignment are complete no-ops:
the world (hence the object's size, capacity and elements) is unchanged and
the trace gains no deallocate call, so the buffer is neither freed nor
double-freed. -/
theorem c6_self_assignment_noop (w : WSt) (i : Nat) :
    copy_assign w i i = w ∧ move_assign w i i = w := by
  constructor <;> simp [copy_assign, move_assign]

/-! ### Range assign round trip (src/vector.h lines 207-210, 562-587) -/

/-- One element of an overwrite loop: slot k is assigned the value currently
at slot k (needed below because source and destination alias). -/
theorem set_getD_self (L : List Nat) (k : Nat) : L.set k (L.getD k 0) = L := by
  induction L generalizing k with
  | nil => rfl
  | cons a t ih =>
    cases k with
    | zero => rfl
    | succ k => exact congrArg (a :: ·) (ih k)

/-- The element-wise loop of std::copy(first, last, start_) when the source
range is the destination buffer itself: for k in [k, n), slot k is assigned
the value the buffer currently holds at k. -/
def copy_self_loop (L : List Nat) (k n : Nat) : List Nat :=
  if h : k < n then copy_self_loop (L.set k (L.getD k 0)) (k + 1) n else L
termination_by n - k

/-- The aliased overwrite loop leaves the buffer unchanged. -/
theorem copy_self_loop_eq (L : List Nat) (k n : Nat) : copy_self_loop L k n = L := by
  generalize hd : n - k = d
  induction d generalizing L k with
  | zero =>
    rw [copy_self_loop, dif_neg (by omega)]
  | succ d ih =>
    rw [copy_self_loop]
    by_cases h : k < n
    · rw [dif_pos h, set_getD_self]
      exact ih L (k + 1) (by omega)
    · rw [dif_neg h]

/-- v.assign(v.begin(), v.end()): range_assign (src/vector.h lines 562-587)
instantiated at the container's own range, so std::distance(first, last) is
the container's size and all reads of the source go through the aliased
buffer.  Branches follow the source: reallocate when the length exceeds
capacity (after check_init_len), otherwise copy over the prefix and erase the
(here empty) excess, or copy and extend when the container is smaller than
the incoming range (unreachable for the self range). -/
def range_assign_self (szT : Nat) (st : StB) : Except Unit StB :=
  if st.v.cap < st.v.elems.length then
    match check_init_len szT st.v.elems.length with
    | Except.error e => Except.error e
    | Except.ok l =>
      let a := allocB st.next l
      Except.ok
        { v := { start := a.1, elems := st.v.elems, cap := l },
          next := a.2.1,
          tr := st.tr ++ a.2.2 ++ deallocB st.v.start st.v.cap }
  else if st.v.elems.length ≤ st.v.elems.length then
    Except.ok { st with v := { st.v with
      elems := (copy_self_loop st.v.elems 0 st.v.elems.length).take
        st.v.elems.length } }
  else
    Except.ok { st with v := { st.v with
      elems := copy_self_loop st.v.elems 0 st.v.elems.length } }

/-- C8: v.assign(v.begin(), v.end()) leaves the container unchanged - same
size, same capacity, same elements, and no allocator interaction. -/
theorem c8_assign_self_round_trip (szT : Nat) (st : StB)
    (h : st.v.elems.length ≤ st.v.cap) :
    range_assign_self szT st = Except.ok st := by
  unfold range_assign_self
  rw [if_neg (by omega), if_pos (le_refl _), copy_self_loop_eq, List.take_length]

/-- Witness for C8 at a vector holding [4] at capacity 2. -/
theorem c8_assign_self_witness : range_assign_self 8 st42 = Except.ok st42 :=
  c8_assign_self_round_trip 8 st42 (by decide)

/-! ### Fill insert and range insert (src/vector.h lines 396-414, 643-729) -/

/-- vector::fill_insert(position, count, value), src/vector.h lines 643-686,
for a trivially-copyable element type.  A zero count returns at once.  With
spare capacity strictly greater than count the tail is shuffled in place
(split on whether the elements after the insertion point outnumber count);
otherwise grow via check_len(count), build the new buffer with the fill
constructed at its final place, then destroy and deallocate the old buffer. -/
def fill_insert (szT : Nat) (st : StB) (pos count x : Nat) : Except Unit StB :=
  if count ≠ 0 then
    if count < st.v.cap - st.v.elems.length then
      if count < st.v.elems.length - pos then
        let l1 := st.v.elems ++ st.v.elems.drop (st.v.elems.length - count)
        let l2 := setRange l1 (pos + count)
          ((l1.take (st.v.elems.length - count)).drop pos)
        Except.ok { st with v := { st.v with
          elems := setRange l2 pos (List.replicate count x) } }
      else
        let l1 := st.v.elems ++
          List.replicate (count - (st.v.elems.length - pos)) x
        let l2 := l1 ++ st.v.elems.drop pos
        Except.ok { st with v := { st.v with
          elems := setRange l2 pos
            (List.replicate (st.v.elems.length - pos) x) } }
    else
      match check_len szT st.v.elems.length count with
      | Except.error e => Except.error e
      | Except.ok newCap =>
        let a := allocB st.next newCap
        Except.ok ⟨⟨a.1,
          st.v.elems.take pos ++ List.replicate count x ++ st.v.elems.drop pos,
          newCap⟩, a.2.1, st.tr ++ a.2.2 ++ deallocB st.v.start st.v.cap⟩
  else Except.ok st

/-- vector::range_insert(pos, first, last, tag), src/vector.h lines 688-729,
with the incoming range [first, last) given as the list src (not aliasing the
container).  An empty range returns at once; the branches mirror
fill_insert with copies from src in place of fills. -/
def range_insert (szT : Nat) (st : StB) (pos : Nat) (src : List Nat) :
    Except Unit StB :=
  if src ≠ [] then
    if src.length < st.v.cap - st.v.elems.length then
      if src.length < st.v.elems.length - pos then
        let l1 := st.v.elems ++ st.v.elems.drop (st.v.elems.length - src.length)
        let l2 := setRange l1 (pos + src.length)
          ((l1.take (st.v.elems.length - src.length)).drop pos)
        Except.ok { st with v := { st.v with elems := setRange l2 pos src } }
      else
        let l1 := st.v.elems ++ src.drop (st.v.elems.length - pos)
        let l2 := l1 ++ st.v.elems.drop pos
        Except.ok { st with v := { st.v with
          elems := setRange l2 pos (src.take (st.v.elems.length - pos)) } }
    else
      match check_len szT st.v.elems.length src.length with
      | Except.error e => Except.error e
      | Except.ok newCap =>
        let a := allocB st.next newCap
        Except.ok ⟨⟨a.1, st.v.elems.take pos ++ src ++ st.v.elems.drop pos,
          newCap⟩, a.2.1, st.tr ++ a.2.2 ++ deallocB st.v.start st.v.cap⟩
  else Except.ok st

/-- vector::insert(pos, count, value), src/vector.h lines 396-400: record the
offset diff = pos - cbegin(), run fill_insert, return start_ + diff. -/
def insert_fill (szT : Nat) (st : StB) (pos count x : Nat) :
    Except Unit (StB × Nat) :=
  match fill_insert szT st pos count x with
  | Except.error e => Except.error e
  | Except.ok st2 => Except.ok (st2, st2.v.start + pos)

/-- vector::insert(pos, first, last), src/vector.h lines 402-407: record the
offset, run range_insert, return start_ + diff. -/
def insert_range (szT : Nat) (st : StB) (pos : Nat) (src : List Nat) :
    Except Unit (StB × Nat) :=
  match range_insert szT st pos src with
  | Except.error e => Except.error e
  | Except.ok st2 => Except.ok (st2, st2.v.start + pos)

/-- C9: inserting zero copies, or an empty range, changes nothing - no
allocator call, no element constructed or destroyed, same size and capacity -
and the returned iterator sits at the original offset pos from begin(). -/
theorem c9_empty_insert_noop (szT : Nat) (st : StB) (pos x : Nat) :
    insert_fill szT st pos 0 x = Except.ok (st, st.v.start + pos) ∧
    insert_range szT st pos [] = Except.ok (st, st.v.start + pos) := by
  exact ⟨rfl, rfl⟩

/-! ### Equality comparison (src/vector.h lines 800-809) -/

/-- std::equal(first1, last1, first2) on the element lists; the source's
precondition that the second range is at least as long as the first is
ensured by the size guard at the call site, so the leftover case is modelled
as vacuously true. -/
def std_equal : List Nat → List Nat → Bool
  | [], _ => true
  | _ :: _, [] => true
  | x :: xs, y :: ys => (x == y) && std_equal xs ys

/-- operator==(lhs, rhs), src/vector.h lines 800-804. -/
def vec_eq (a b : VecB) : Bool :=
  (a.elems.length == b.elems.length) && std_equal a.elems b.elems

/-- operator!=(lhs, rhs), src/vector.h lines 806-809. -/
def vec_ne (a b : VecB) : Bool := !(vec_eq a b)

/-- On same-length lists std_equal is index-wise agreement. -/
theorem std_equal_iff (L M : List Nat) (h : L.length = M.length) :
    (std_equal L M = true ↔ ∀ i, i < L.length → L.getD i 0 = M.getD i 0) := by
  induction L generalizing M with
  | nil => simp [std_equal]
  | cons x xs ih =>
    cases M with
    | nil => simp at h
    | cons y ys =>
      have hlen : xs.length = ys.length := by simpa using h
      simp only [std_equal, Bool.and_eq_true, beq_iff_eq]
      constructor
      · rintro ⟨hxy, hrest⟩ i hi
        cases i with
        | zero => simpa using hxy
        | succ i =>
          simpa using (ih ys hlen).mp hrest i (by simpa using hi)
      · intro hall
        refine ⟨by simpa using hall 0 (by simp), (ih ys hlen).mpr ?_⟩
        intro i hi
        simpa using hall (i + 1) (by simpa using hi)

/-- C10: a == b holds exactly when the sizes agree and the elements agree at
every index below the size, and a != b is always the negation of a == b. -/
theorem c10_equality_spec (a b : VecB) :
    (vec_eq a b = true ↔
      (a.elems.length = b.elems.length ∧
        ∀ i, i < a.elems.length → a.elems.getD i 0 = b.elems.getD i 0)) ∧
    vec_ne a b = !(vec_eq a b) := by
  refine ⟨?_, rfl⟩
  unfold vec_eq
  simp only [Bool.and_eq_true, beq_iff_eq]
  constructor
  · rintro ⟨h1, h2⟩
    exact ⟨h1, (std_equal_iff _ _ h1).mp h2⟩
  · rintro ⟨h1, h2⟩
    exact ⟨h1, (std_equal_iff _ _ h1).mpr h2⟩

/-- Witness for C10: two vectors with the same elements in buffers of
different capacity and address compare equal. -/
theorem c10_equality_witness : vec_eq ⟨1, [1, 2], 2⟩ ⟨5, [1, 2], 4⟩ = true :=
  ((c10_equality_spec ⟨1, [1, 2], 2⟩ ⟨5, [1, 2], 4⟩).1).mpr ⟨rfl, by decide⟩

/-! ### Inserting a reference into the same container
(src/vector.h lines 373-384, 598-614)

vector::insert takes the value by reference.  When the caller passes a
reference to an element of the same vector, every read of the value inside
the insertion algorithm dereferences the container's own buffer as it stands
at that moment.  The models below thread that aliasing: the value argument is
the index src of the referenced element, and reads go through the current
buffer contents. -/

/-- The shift loop of unrealloc_insert, src/vector.h lines 607-609: for
it = end() - 1 down to position + 1, assign the slot below into slot it. -/
def shift_loop : List Nat → Nat → Nat → List Nat
  | L, 0, _ => L
  | L, it + 1, pos =>
    if pos < it + 1 then shift_loop (L.set (it + 1) (L.getD it 0)) it pos
    else L

/-- vector::unrealloc_insert(position, value), src/vector.h lines 598-614,
with value a reference to index src of the same buffer, element type
trivially destructible (so Tr::destroy(position) changes no bytes).  At the
end() position the value is read before anything moves; otherwise the last
element is copy-constructed into the next raw slot, the tail is shifted up by
assignment, and only then is the value read and assigned into position. -/
def unrealloc_insert_aliased (L : List Nat) (pos src : Nat) : List Nat :=
  if pos = L.length then L ++ [L.getD src 0]
  else
    let l1 := L ++ [L.getD (L.length - 1) 0]
    let l2 := shift_loop l1 (L.length - 1) pos
    l2.set pos (l2.getD src 0)

/-- vector::realloc_insert with an aliased value (element sequence only):
the new element is constructed into the new buffer from the old, still
intact, buffer before any element is transferred (src/vector.h line 629
precedes lines 631-633), so it receives the pre-call value at src. -/
def realloc_insert_aliased (L : List Nat) (pos src : Nat) : List Nat :=
  L.take pos ++ L.getD src 0 :: L.drop pos

/-- vector::insert(pos, value), src/vector.h lines 373-384, with value a
reference to the element at index src of this same vector: dispatch on
finish_ != end_of_storage_. -/
def insert_aliased (v : VecB) (pos src : Nat) : List Nat :=
  if v.elems.length ≠ v.cap then unrealloc_insert_aliased v.elems pos src
  else realloc_insert_aliased v.elems pos src

/-- C2: the spare-capacity path inserts the wrong value.  For c = [1, 2]
with spare capacity, c.insert(c.begin(), c.back()) must produce [2, 1, 2]
(the pre-call back value 2 placed at the front); the code shifts the tail
first, which overwrites the referenced slot, and then reads the reference,
producing [1, 1, 2]. -/
theorem c2_aliased_insert_wrong_value :
    insert_aliased ⟨1, [1, 2], 4⟩ 0 1 = [1, 1, 2] ∧
    ([1, 1, 2] : List Nat) ≠ 2 :: [1, 2] := by
  exact ⟨rfl, by decide⟩

/-! ### Reallocation under a throwing element operation
(src/vector.h lines 617-641)

The heap model tracks, per allocated block, the construction state of every
slot, so that leaking a buffer or leaving an element constructed in a leaked
buffer is observable.  A failure oracle says which element values throw when
copied or moved.  Exceptions carry the state at the throw point, exactly the
state a C++ exception would propagate over. -/

/-- A heap block: its allocated count and per-slot construction state. -/
structure Blk where
  cap   : Nat
  slots : List (Option Nat)
deriving DecidableEq, Repr

/-- The heap: block id maps to an allocated block, or none once deallocated.
Index 0 is reserved as the never-allocated null sentinel. -/
abbrev Heap := List (Option Blk)

/-- vector::allocate in the heap model: a fresh block of c raw slots, or the
null id 0 when c = 0. -/
def heapAlloc (h : Heap) (c : Nat) : Heap × Nat :=
  if c = 0 then (h, 0) else (h ++ [some ⟨c, List.replicate c none⟩], h.length)

/-- vector::deallocate in the heap model: release the block unless null. -/
def heapFree (h : Heap) (id : Nat) : Heap :=
  if id = 0 then h else h.set id none

/-- Apply f to the block with the given id, if still allocated. -/
def heapMod (h : Heap) (id : Nat) (f : Blk → Blk) : Heap :=
  h.set id ((h.getD id none).map f)

/-- Placement-construct val into slot idx. -/
def blkConstruct (b : Blk) (idx val : Nat) : Blk :=
  ⟨b.cap, b.slots.set idx (some val)⟩

/-- Destroy the element in slot idx, returning the slot to raw storage. -/
def blkDestroy (b : Blk) (idx : Nat) : Blk :=
  ⟨b.cap, b.slots.set idx none⟩

/-- Read the element value at block id, slot idx. -/
def heapRead (h : Heap) (id idx : Nat) : Nat :=
  match h.getD id none with
  | some b => (b.slots.getD idx none).getD 0
  | none => 0

/-- std::destroy on n slots of a block starting at lo. -/
def destroyRange : Heap → Nat → Nat → Nat → Heap
  | h, _, _, 0 => h
  | h, id, lo, n + 1 => destroyRange (heapMod h id (blkDestroy · lo)) id (lo + 1) n

/-- std::uninitialized_move of n elements from srcId at srcPos into dstId at
dstPos: constructs one element at a time; if moving a value fails, the
elements this call itself constructed (dst slots [dstStart, dstPos)) are
destroyed, per the standard's guarantee for uninitialized_move, and the
error propagates carrying the heap in that state. -/
def uninitMove (fail : Nat → Bool) (srcId dstId : Nat) :
    Heap → Nat → Nat → Nat → Nat → Except Heap Heap
  | h, _, _, _, 0 => Except.ok h
  | h, srcPos, dstPos, dstStart, n + 1 =>
    let v := heapRead h srcId srcPos
    if fail v then Except.error (destroyRange h dstId dstStart (dstPos - dstStart))
    else uninitMove fail srcId dstId
      (heapMod h dstId (fun b => blkConstruct b dstPos v))
      (srcPos + 1) (dstPos + 1) dstStart n

/-- A vector over the heap model: its buffer's block id, size and capacity. -/
structure VSt where
  heap    : Heap
  startId : Nat
  size    : Nat
  cap     : Nat
deriving DecidableEq, Repr

/-- vector::realloc_insert(position, args), src/vector.h lines 617-641, in
the heap model with failure oracle fail: check_len(1); allocate the new
buffer; construct the new element at its final slot (line 629); move the
prefix (line 631), then the suffix (line 633); destroy the old elements and
deallocate the old buffer; install the new bounds.  The source has no
exception handling, so each failing step simply propagates with the heap as
that step left it. -/
def realloc_insert_heap (fail : Nat → Bool) (szT : Nat) (st : VSt)
    (pos val : Nat) : Except VSt VSt :=
  match check_len szT st.size 1 with
  | Except.error _ => Except.error st
  | Except.ok newCap =>
    let a := heapAlloc st.heap newCap
    if fail val then Except.error { st with heap := a.1 }
    else
      match uninitMove fail st.startId a.2
          (heapMod a.1 a.2 (fun b => blkConstruct b pos val)) 0 0 0 pos with
      | Except.error h => Except.error { st with heap := h }
      | Except.ok h3 =>
        match uninitMove fail st.startId a.2 h3 pos (pos + 1) (pos + 1)
            (st.size - pos) with
        | Except.error h => Except.error { st with heap := h }
        | Except.ok h4 =>
          Except.ok
            { heap := heapFree (destroyRange h4 st.startId 0 st.size) st.startId,
              startId := a.2, size := st.size + 1, cap := newCap }

/-- C1: push_back onto a full vector [7] (size = capacity = 1), where moving
the value 7 throws: realloc_insert allocates the new block (id 2, count 2),
constructs the new element 5 into its final slot, and the transfer of 7 then
fails.  The error propagates with block 2 still allocated and the element 5
still constructed inside it: the partially constructed new buffer is neither
destroyed nor released, contradicting the claimed rollback. -/
theorem c1_realloc_insert_leaks_new_buffer :
    realloc_insert_heap (fun v => v == 7) 8
        ⟨[none, some ⟨1, [some 7]⟩], 1, 1, 1⟩ 1 5 =
      Except.error
        ⟨[none, some ⟨1, [some 7]⟩, some ⟨2, [none, some 5]⟩], 1, 1, 1⟩ ∧
    ([none, some ⟨1, [some 7]⟩, some ⟨2, [none, some 5]⟩] : Heap).getD 2 none
      ≠ none := by
  exact ⟨rfl, by decide⟩
